import Mathlib

/-!
Shallow embedding of the MPRIS media-player plugin
(`src/mpris_dbus_controller/__init__.py` and `src/__init__.py`).

The session bus is modelled as an explicit value: the list of registered
bus names together with the remote state of each reachable player.  The
controller (`MPRISDBusController`) is a record of its Python attributes
(`bus_app`, `proxy`, `interface`, `properties`); the three connection
handles are modelled as the bound service name (`Option String`), `none`
meaning the Python `None`.  Operations that can raise a Python exception
return `Except String _`; operations whose `try`/`except` swallows the
exception are total.  Python builtins used by the source (`str.split`,
`str.startswith`, `in`, `int(...)`, `dict.get`, sequence indexing,
decimal `f"{n:02}"` formatting) are embedded below; floats in
`get_position_str` are embedded as exact integer floor-division and
floor-mod, which agrees with the source on the whole-microsecond values
all claims are about.
-/

namespace MprisPlugin

/-! ### Python string and number primitives -/

/-- Python `s.startswith(p)`. -/
def pyStartswith (s p : String) : Bool :=
  p.data.isPrefixOf s.data

/-- Python `pat in s` (substring containment), on character lists. -/
def containsSubAux (pat : List Char) : List Char → Bool
  | [] => pat.isPrefixOf []
  | c :: cs => pat.isPrefixOf (c :: cs) || containsSubAux pat cs

/-- Python `pat in s` (substring containment). -/
def containsSub (s pat : String) : Bool :=
  containsSubAux pat.data s.data

/-- Python `s.split(sep)` for a one-character separator, on character
lists.  Always returns a non-empty list of pieces; splitting keeps
empty pieces, as in Python. -/
def pySplitChar (sep : Char) : List Char → List (List Char)
  | [] => [[]]
  | c :: cs =>
    match pySplitChar sep cs with
    | [] => [[c]]
    | t :: ts => if c = sep then [] :: t :: ts else (c :: t) :: ts

/-- Python `s.split(sep)` for a one-character separator. -/
def pySplit (s : String) (sep : Char) : List String :=
  (pySplitChar sep s.data).map String.mk

/-- Decimal digit value of a character, `none` if not a digit. -/
def digitVal (c : Char) : Option Nat :=
  if c.isDigit then some (c.toNat - 48) else none

/-- Big-endian decimal accumulator for `int(...)`. -/
def parseDigitsAux : List Char → Nat → Option Nat
  | [], acc => some acc
  | c :: cs, acc =>
    match digitVal c with
    | some d => parseDigitsAux cs (acc * 10 + d)
    | none => none

/-- Python `int(s)` on the character list: an optional sign followed
by a non-empty run of decimal digits; anything else raises
`ValueError` (`none` here).  (Surrounding whitespace and digit-group
underscores, which Python also accepts, are not modelled; no claim
exercises them.) -/
def pyIntOfChars : List Char → Option Int
  | [] => none
  | c :: cs =>
    if c = '-' then
      if cs = [] then none else (parseDigitsAux cs 0).map (fun n => -(n : Int))
    else if c = '+' then
      if cs = [] then none else (parseDigitsAux cs 0).map (fun n => (n : Int))
    else (parseDigitsAux (c :: cs) 0).map (fun n => (n : Int))

/-- Python `int(s)`. -/
def pyIntOfString (s : String) : Option Int :=
  pyIntOfChars s.data

/-- Character of a decimal digit. -/
def digitChar (d : Nat) : Char :=
  Char.ofNat (48 + d)

/-- Big-endian decimal digits of a positive number; structural on the
fuel so that it evaluates inside the kernel.  Any fuel at least `n`
gives the digits of `n`. -/
def natToCharsAux : Nat → Nat → List Char
  | 0, _ => []
  | fuel + 1, n => if n = 0 then [] else natToCharsAux fuel (n / 10) ++ [digitChar (n % 10)]

/-- Decimal rendering of a natural number, as Python prints it. -/
def natToChars (n : Nat) : List Char :=
  if n = 0 then ['0'] else natToCharsAux n n

/-- Decimal rendering of an integer, as Python prints it. -/
def intToString (i : Int) : String :=
  if i < 0 then "-" ++ String.mk (natToChars (-i).toNat)
  else String.mk (natToChars i.toNat)

/-- Python `f"{i:02}"`: pad to width 2 with a leading zero.  (For width
2 only a bare single digit is ever padded, since a sign already fills
the width.) -/
def pad2 (i : Int) : String :=
  let s := intToString i
  if s.length < 2 then "0" ++ s else s

/-! ### Remote metadata values and `get_metadata` normalization -/

/-- A value stored in the remote `Metadata` mapping: a string, an
integer, or a sequence of strings (the shapes MPRIS uses for the keys
the source reads). -/
inductive DBusValue where
  | vstr (s : String)
  | vint (n : Int)
  | vlist (l : List String)
  deriving DecidableEq

/-- Python `str(v)`.  Always succeeds; the rendering of a sequence is
abstracted (no claim observes it). -/
def pyStr : DBusValue → String
  | .vstr s => s
  | .vint n => intToString n
  | .vlist l => "[" ++ String.intercalate ", " l ++ "]"

/-- Python `int(v)`: identity on integers, decimal parse on strings,
`TypeError` (`none`) on sequences. -/
def pyInt : DBusValue → Option Int
  | .vstr s => pyIntOfString s
  | .vint n => some n
  | .vlist _ => none

/-- Python `v[0]`: first element of a sequence, first character of a
string; raises (`none`) on an empty sequence or string, or on an
integer. -/
def pyIndex0 : DBusValue → Option DBusValue
  | .vstr s =>
    match s.data with
    | [] => none
    | c :: _ => some (.vstr (String.mk [c]))
  | .vint _ => none
  | .vlist l => l.head?.map .vstr

/-- Lookup in a Python dict modelled as an association list. -/
def dictLookup : List (String × DBusValue) → String → Option DBusValue
  | [], _ => none
  | (k, v) :: rest, key => if k = key then some v else dictLookup rest key

/-- Python `d.get(key, default)`. -/
def dictGet (m : List (String × DBusValue)) (key : String) (d : DBusValue) : DBusValue :=
  (dictLookup m key).getD d

/-- Turn a fallible Python expression into `Except`. -/
def raising (o : Option α) (e : String) : Except String α :=
  match o with
  | some a => .ok a
  | none => .error e

/-- The normalized track-metadata dict built by `get_metadata`. -/
structure TrackMetadata where
  title : String
  artist : String
  album : String
  album_artist : String
  track_number : Int
  url : String
  art_url : String
  length : Int
  track_id : String
  deriving DecidableEq

/-- The dict literal in `get_metadata`, applied to the raw remote
`Metadata` mapping (source lines 193–203).  Each field mirrors one
entry: `str`/`int` conversions, `.get` defaults, and `[0]` indexing of
the artist fields can raise, which surfaces as `.error`. -/
def normalize_metadata (m : List (String × DBusValue)) : Except String TrackMetadata := do
  let artistV ← raising (pyIndex0 (dictGet m "xesam:artist" (.vlist ["Unknown"]))) "IndexError"
  let albumArtistV ← raising (pyIndex0 (dictGet m "xesam:albumArtist" (.vlist ["Unknown"]))) "IndexError"
  let trackNum ← raising (pyInt (dictGet m "xesam:trackNumber" (.vint 0))) "ValueError"
  let len ← raising (pyInt (dictGet m "mpris:length" (.vint 0))) "ValueError"
  .ok
    { title := pyStr (dictGet m "xesam:title" (.vstr "Unknown"))
      artist := pyStr artistV
      album := pyStr (dictGet m "xesam:album" (.vstr "Unknown"))
      album_artist := pyStr albumArtistV
      track_number := trackNum
      url := pyStr (dictGet m "xesam:url" (.vstr ""))
      art_url := pyStr (dictGet m "mpris:artUrl" (.vstr ""))
      length := len
      track_id := pyStr (dictGet m "mpris:trackid" (.vstr "")) }

/-! ### The session bus and the remote players -/

/-- Remote state of one player reachable on the bus. -/
structure RemotePlayer where
  playbackStatus : String
  position : Int
  shuffle : Bool
  loopStatus : String
  metadata : List (String × DBusValue)
  deriving DecidableEq

/-- Lookup of a reachable player by full service name. -/
def lookupPlayer : List (String × RemotePlayer) → String → Option RemotePlayer
  | [], _ => none
  | (k, p) :: rest, svc => if k = svc then some p else lookupPlayer rest svc

/-- Write the `LoopStatus` property of a service. -/
def setLoopIn (v : String) : List (String × RemotePlayer) → String → List (String × RemotePlayer)
  | [], _ => []
  | (k, p) :: rest, svc =>
    if k = svc then (k, { p with loopStatus := v }) :: setLoopIn v rest svc
    else (k, p) :: setLoopIn v rest svc

/-- The session bus: the raw name registry (`ListNames`) and the
reachable players keyed by full service name. -/
structure Bus where
  names : List String
  players : List (String × RemotePlayer)
  deriving DecidableEq

/-- `self.bus.get_object(svc, "/org/mpris/MediaPlayer2")`: succeeds
exactly when the service name is registered, raising otherwise. -/
def get_object (bus : Bus) (svc : String) : Except String String :=
  if bus.names.contains svc then .ok svc else .error "ServiceUnknown"

/-! ### The controller state (`MPRISDBusController` attributes) -/

/-- The mutable attributes of `MPRISDBusController`.  A connection
handle is the service name it is bound to; `none` is Python `None`. -/
structure Controller where
  bus_app : String
  proxy : Option String
  interface : Option String
  properties : Option String
  deriving DecidableEq

/-! ### Bus discovery (source lines 21–35) -/

/-- `_get_available_bus_names`, applied to the raw `ListNames` result.
(The surrounding `try`/`except` returns `[]` on a registry failure;
the registry result itself is the explicit `services` input here.) -/
def _get_available_bus_names (services : List String) : List String :=
  let names := services.filter (fun s => pyStartswith s "org.mpris.MediaPlayer2.")
  names.filter (fun name => !(pyStartswith name ":" || containsSub name "instance"))

/-- `get_available_bus_apps`: `name.split(".")[-1]` of each filtered
name. -/
def get_available_bus_apps (services : List String) : List String :=
  (_get_available_bus_names services).map (fun name => (pySplit name '.').getLastD "")

/-- `is_bus_app_available`. -/
def is_bus_app_available (bus : Bus) (app : String) : Bool :=
  (get_available_bus_apps bus.names).contains app

/-- `is_current_bus_app_available`. -/
def is_current_bus_app_available (bus : Bus) (c : Controller) : Bool :=
  is_bus_app_available bus c.bus_app

/-- `is_current_bus_app_active`. -/
def is_current_bus_app_active (bus : Bus) (c : Controller) : Bool :=
  is_current_bus_app_available bus c && c.proxy.isSome

/-! ### Connection lifecycle (source lines 41–70) -/

/-- `activate_bus_app(bus_app)` (source lines 41–48).  Note the source
connects to `f"org.mpris.MediaPlayer2.{self.bus_app}"` — the *stored*
identity — and never assigns `self.bus_app`; the `bus_app` argument is
used only in the logged error message.  The `except` swallows the
failure, leaving every attribute as it was. -/
def activate_bus_app (bus : Bus) (c : Controller) (bus_app : String) : Controller :=
  match get_object bus ("org.mpris.MediaPlayer2." ++ c.bus_app) with
  | .ok p => { c with proxy := some p, interface := some p, properties := some p }
  | .error _ => c

/-- `activate_current_bus_app`. -/
def activate_current_bus_app (bus : Bus) (c : Controller) : Controller :=
  activate_bus_app bus c c.bus_app

/-- `deactivate_bus_app`. -/
def deactivate_bus_app (c : Controller) : Controller :=
  { c with proxy := none, interface := none, properties := none }

/-- `__init__(bus_app)` (source lines 10–18). -/
def initController (bus : Bus) (bus_app : String) : Controller :=
  let c : Controller := { bus_app := bus_app, proxy := none, interface := none, properties := none }
  if is_current_bus_app_available bus c then activate_current_bus_app bus c else c

/-! ### Property access on the bound service -/

/-- `self.properties.Get(INTERFACE, key)` resolved against the bus:
raises if the bound service has vanished from the bus. -/
def propertiesGet (bus : Bus) (svc : String) : Except String RemotePlayer :=
  match lookupPlayer bus.players svc with
  | some p => .ok p
  | none => .error "ServiceUnknown"

/-! ### Player status getters (source lines 104–138) -/

/-- `get_playback_status` (source lines 104–108). -/
def get_playback_status (bus : Bus) (c : Controller) : Except String String :=
  match c.properties with
  | none => .ok "Stopped"
  | some svc => do
    let p ← propertiesGet bus svc
    .ok p.playbackStatus

/-- `get_position` (source lines 110–114). -/
def get_position (bus : Bus) (c : Controller) : Except String Int :=
  match c.properties with
  | none => .ok 0
  | some svc => do
    let p ← propertiesGet bus svc
    .ok p.position

/-- `get_metadata` (source lines 188–203). -/
def get_metadata (bus : Bus) (c : Controller) : Except String (Option TrackMetadata) :=
  match c.properties with
  | none => .ok none
  | some svc => do
    let p ← propertiesGet bus svc
    let t ← normalize_metadata p.metadata
    .ok (some t)

/-- The `MM:SS` rendering the source computes inline in
`get_position_str` and `get_position_and_length_str` from a whole
number of seconds. -/
def format_mm_ss (secs : Int) : String :=
  pad2 (Int.fdiv secs 60) ++ ":" ++ pad2 (Int.fmod secs 60)

/-- `get_position_str` (source lines 116–124).  Note the default on
absent metadata is the literal `"00:00:00"` in the source. -/
def get_position_str (bus : Bus) (c : Controller) : Except String String := do
  let md ← get_metadata bus c
  match md with
  | none => .ok "00:00:00"
  | some _ => do
    let pos ← get_position bus c
    .ok (format_mm_ss (Int.fdiv pos 1000000))

/-- `get_position_and_length_str` (source lines 126–138). -/
def get_position_and_length_str (bus : Bus) (c : Controller) : Except String String := do
  let md ← get_metadata bus c
  match md with
  | none => .ok "00:00/00:00"
  | some t => do
    let pos ← get_position bus c
    let fullSecs : Int := if t.length = 0 then 0 else Int.fdiv t.length 1000000
    .ok (format_mm_ss (Int.fdiv pos 1000000) ++ "/" ++ format_mm_ss fullSecs)

/-! ### Position setters (source lines 140–153) -/

/-- `set_position` (source lines 140–147).  The observable effect is
the `SetPosition(track_id, position)` call; `ok none` is the silent
no-op taken when unbound or when metadata is absent. -/
def set_position (bus : Bus) (c : Controller) (position : Int) :
    Except String (Option (String × Int)) :=
  match c.interface with
  | none => .ok none
  | some _ => do
    let md ← get_metadata bus c
    match md with
    | none => .ok none
    | some t => .ok (some (t.track_id, position))

/-- The decomposition in `set_position_str`:
`minutes, seconds = map(int, position_str.split(":"))` then
`(minutes * 60 + seconds) * 1_000_000`; `none` is the `ValueError`
Python raises on a wrong token count or a non-integer token. -/
def parse_position_str (s : String) : Option Int :=
  match pySplit s ':' with
  | [a, b] =>
    match pyIntOfString a, pyIntOfString b with
    | some m, some sec => some ((m * 60 + sec) * 1000000)
    | _, _ => none
  | _ => none

/-- `set_position_str` (source lines 149–153). -/
def set_position_str (bus : Bus) (c : Controller) (position_str : String) :
    Except String (Option (String × Int)) :=
  match parse_position_str position_str with
  | some pos => set_position bus c pos
  | none => .error "ValueError"

/-! ### Shuffle and loop (source lines 156–185) -/

/-- `get_shuffle` (source lines 161–165). -/
def get_shuffle (bus : Bus) (c : Controller) : Except String Bool :=
  match c.properties with
  | none => .ok false
  | some svc => do
    let p ← propertiesGet bus svc
    .ok p.shuffle

/-- `get_loop` (source lines 172–176). -/
def get_loop (bus : Bus) (c : Controller) : Except String String :=
  match c.properties with
  | none => .ok "None"
  | some svc => do
    let p ← propertiesGet bus svc
    .ok p.loopStatus

/-- `self.properties.Set(INTERFACE, "LoopStatus", v)` resolved against
the bus: the write lands on the bound service, raising if it vanished. -/
def propertiesSetLoop (bus : Bus) (svc v : String) : Except String Bus :=
  match lookupPlayer bus.players svc with
  | some _ => .ok { bus with players := setLoopIn v bus.players svc }
  | none => .error "ServiceUnknown"

/-- `LOOP_STATES` (source line 181). -/
def LOOP_STATES : List String := ["None", "Track", "Playlist"]

/-- `cycle_loop` (source lines 178–185): read `LoopStatus`, find its
index in `LOOP_STATES` (Python `.index` raises `ValueError` when
absent), write the next state cyclically.  Returns the updated bus. -/
def cycle_loop (bus : Bus) (c : Controller) : Except String Bus :=
  match c.properties with
  | none => .ok bus
  | some svc => do
    let loop ← get_loop bus c
    match LOOP_STATES.findIdx? (· == loop) with
    | none => .error "ValueError"
    | some i => propertiesSetLoop bus svc (LOOP_STATES.getD ((i + 1) % LOOP_STATES.length) "")

/-! ### Metadata convenience getters (source lines 205–238) -/

/-- `get_title` (source lines 205–210). -/
def get_title (bus : Bus) (c : Controller) : Except String String := do
  let md ← get_metadata bus c
  match md with
  | none => .ok "-"
  | some t => .ok t.title

/-- `get_artist` (source lines 212–217). -/
def get_artist (bus : Bus) (c : Controller) : Except String String := do
  let md ← get_metadata bus c
  match md with
  | none => .ok "-"
  | some t => .ok t.artist

/-- `get_album` (source lines 219–224). -/
def get_album (bus : Bus) (c : Controller) : Except String String := do
  let md ← get_metadata bus c
  match md with
  | none => .ok "-"
  | some t => .ok t.album

/-- `get_album_artist` (source lines 226–231). -/
def get_album_artist (bus : Bus) (c : Controller) : Except String String := do
  let md ← get_metadata bus c
  match md with
  | none => .ok "-"
  | some t => .ok t.album_artist

/-- `get_art_url` (source lines 233–238). -/
def get_art_url (bus : Bus) (c : Controller) : Except String String := do
  let md ← get_metadata bus c
  match md with
  | none => .ok ""
  | some t => .ok t.art_url

/-! ### Spec-side definitions (for refinement comparisons)

These two follow the words of the specification, to be compared with
`get_available_bus_apps`, which is translated from the source. -/

/-- §4.1 `list_available_identities` as the claim words it: keep names
with the player-service naming convention, drop anonymous names and
names holding the instance-qualifier token, and map each kept name to
*the full remainder after removing the well-known service name part*. -/
def spec_available_identities_claim (services : List String) : List String :=
  (services.filter (fun n =>
      pyStartswith n "org.mpris.MediaPlayer2." && !pyStartswith n ":" &&
        !containsSub n "instance")).map
    (fun n => String.mk (n.data.drop "org.mpris.MediaPlayer2.".data.length))

/-- The same filtering, but mapping each kept name to its *last
dot-separated component* — what the source's `name.split(".")[-1]`
computes. -/
def spec_available_identities (services : List String) : List String :=
  (services.filter (fun n =>
      pyStartswith n "org.mpris.MediaPlayer2." && !pyStartswith n ":" &&
        !containsSub n "instance")).map
    (fun n => (pySplit n '.').getLastD "")

/-- The advance of one step in the fixed cyclic loop order, as the
claim words it. -/
def nextLoop (s : String) : String :=
  if s = "None" then "Track" else if s = "Track" then "Playlist" else "None"

/-- A remote metadata value the normalization can consume without
raising at the key it sits under: the artist fields must be indexable
at 0, the numeric fields must be `int(...)`-convertible; everything
else is rendered with the total `str(...)`. -/
def wfValue (k : String) (v : DBusValue) : Bool :=
  if k = "xesam:artist" ∨ k = "xesam:albumArtist" then (pyIndex0 v).isSome
  else if k = "xesam:trackNumber" ∨ k = "mpris:length" then (pyInt v).isSome
  else true

/-! ### Concrete scenarios used by the closed theorems and witnesses -/

/-- A player reporting real playback state. -/
def vlcPlayer : RemotePlayer :=
  { playbackStatus := "Playing", position := 65000000, shuffle := false,
    loopStatus := "None", metadata := [] }

/-- A bus where only `vlc` is registered — `spotify` is unavailable. -/
def busOnlyVlc : Bus :=
  { names := ["org.mpris.MediaPlayer2.vlc"],
    players := [("org.mpris.MediaPlayer2.vlc", vlcPlayer)] }

/-- The controller constructed with default identity `"spotify"` on
that bus: it starts Unbound. -/
def ctlSpotifyStart : Controller := initController busOnlyVlc "spotify"

/-- The controller after the switch action `activate_bus_app("vlc")`. -/
def ctlAfterSwitch : Controller := activate_bus_app busOnlyVlc ctlSpotifyStart "vlc"

/-- An empty bus: no name is reachable. -/
def busEmpty : Bus := { names := [], players := [] }

/-- A controller still holding handles bound to a vanished player,
whose selected identity is not reachable either. -/
def ctlStale : Controller :=
  { bus_app := "gone", proxy := some "org.mpris.MediaPlayer2.old",
    interface := some "org.mpris.MediaPlayer2.old",
    properties := some "org.mpris.MediaPlayer2.old" }

/-- An unbound controller (all three handles are `None`). -/
def ctlUnbound : Controller :=
  { bus_app := "spotify", proxy := none, interface := none, properties := none }

/-- A player whose `Metadata` maps `xesam:artist` to a present but
empty sequence. -/
def emptyArtistPlayer : RemotePlayer :=
  { playbackStatus := "Playing", position := 0, shuffle := false,
    loopStatus := "None", metadata := [("xesam:artist", .vlist [])] }

/-- A bus holding that player, and a controller Active on it. -/
def busEmptyArtist : Bus :=
  { names := ["org.mpris.MediaPlayer2.empty"],
    players := [("org.mpris.MediaPlayer2.empty", emptyArtistPlayer)] }

/-- Controller Active and bound to the empty-artist player. -/
def ctlEmptyArtist : Controller :=
  { bus_app := "empty", proxy := some "org.mpris.MediaPlayer2.empty",
    interface := some "org.mpris.MediaPlayer2.empty",
    properties := some "org.mpris.MediaPlayer2.empty" }

/-- A player whose remote `LoopStatus` is outside the three known
states. -/
def fooLoopPlayer : RemotePlayer :=
  { playbackStatus := "Playing", position := 0, shuffle := false,
    loopStatus := "Foo", metadata := [] }

/-- A bus holding that player. -/
def busFooLoop : Bus :=
  { names := ["org.mpris.MediaPlayer2.foo"],
    players := [("org.mpris.MediaPlayer2.foo", fooLoopPlayer)] }

/-- Controller Active and bound to the `Foo`-loop player. -/
def ctlFooLoop : Controller :=
  { bus_app := "foo", proxy := some "org.mpris.MediaPlayer2.foo",
    interface := some "org.mpris.MediaPlayer2.foo",
    properties := some "org.mpris.MediaPlayer2.foo" }

/-- A player with ordinary loop state, for the loop-cycling witness. -/
def plainPlayer : RemotePlayer :=
  { playbackStatus := "Paused", position := 0, shuffle := false,
    loopStatus := "None", metadata := [] }

/-- A bus holding the plain player. -/
def busPlain : Bus :=
  { names := ["org.mpris.MediaPlayer2.plain"],
    players := [("org.mpris.MediaPlayer2.plain", plainPlayer)] }

/-- Controller Active and bound to the plain player. -/
def ctlPlain : Controller :=
  { bus_app := "plain", proxy := some "org.mpris.MediaPlayer2.plain",
    interface := some "org.mpris.MediaPlayer2.plain",
    properties := some "org.mpris.MediaPlayer2.plain" }

/-! ### Lemmas about the decimal primitives -/

theorem digitVal_digitChar (d : Nat) (h : d < 10) : digitVal (digitChar d) = some d := by
  interval_cases d <;> decide

theorem digitChar_ne_colon (d : Nat) (h : d < 10) : digitChar d ≠ ':' := by
  interval_cases d <;> decide

theorem digitChar_ne_minus (d : Nat) (h : d < 10) : digitChar d ≠ '-' := by
  interval_cases d <;> decide

theorem digitChar_ne_plus (d : Nat) (h : d < 10) : digitChar d ≠ '+' := by
  interval_cases d <;> decide

theorem natToCharsAux_mem (f : Nat) :
    ∀ n c, c ∈ natToCharsAux f n → ∃ d, d < 10 ∧ c = digitChar d := by
  induction f with
  | zero => intro n c h; simp [natToCharsAux] at h
  | succ f ih =>
    intro n c h
    by_cases hn : n = 0
    · simp [natToCharsAux, hn] at h
    · rw [natToCharsAux, if_neg hn] at h
      rcases List.mem_append.mp h with h | h
      · exact ih _ _ h
      · exact ⟨n % 10, Nat.mod_lt _ (by norm_num), List.mem_singleton.mp h⟩

theorem parseDigitsAux_append_digit (d : Nat) (hd : d < 10) :
    ∀ (xs : List Char) (acc : Nat),
      parseDigitsAux (xs ++ [digitChar d]) acc =
        (parseDigitsAux xs acc).map (fun v => v * 10 + d) := by
  intro xs
  induction xs with
  | nil => intro acc; simp [parseDigitsAux, digitVal_digitChar d hd]
  | cons c cs ih =>
    intro acc
    cases hv : digitVal c with
    | none => simp [parseDigitsAux, hv]
    | some e => simp [parseDigitsAux, hv, ih]

theorem parseDigitsAux_natToCharsAux :
    ∀ f n acc, n ≤ f →
      parseDigitsAux (natToCharsAux f n) acc =
        some (acc * 10 ^ (natToCharsAux f n).length + n) := by
  intro f
  induction f with
  | zero =>
    intro n acc h
    interval_cases n
    simp [natToCharsAux, parseDigitsAux]
  | succ f ih =>
    intro n acc h
    by_cases hn : n = 0
    · subst hn; simp [natToCharsAux, parseDigitsAux]
    · have hlt : n / 10 ≤ f := by
        have := Nat.div_lt_self (Nat.pos_of_ne_zero hn) (by norm_num : 1 < 10)
        omega
      rw [natToCharsAux, if_neg hn,
        parseDigitsAux_append_digit (n % 10) (Nat.mod_lt _ (by norm_num)),
        ih _ acc hlt]
      simp only [Option.map_some', List.length_append, List.length_singleton]
      congr 1
      have h1 : (acc * 10 ^ (natToCharsAux f (n / 10)).length + n / 10) * 10 + n % 10
          = acc * (10 ^ (natToCharsAux f (n / 10)).length * 10) + (n / 10 * 10 + n % 10) := by
        ring
      have h2 : n / 10 * 10 + n % 10 = n := by omega
      rw [h1, h2, pow_succ]

theorem parse_natToChars (n : Nat) : parseDigitsAux (natToChars n) 0 = some n := by
  by_cases hn : n = 0
  · subst hn; decide
  · have := parseDigitsAux_natToCharsAux n n 0 le_rfl
    simpa [natToChars, hn] using this

theorem natToChars_ne_nil (n : Nat) : natToChars n ≠ [] := by
  by_cases hn : n = 0
  · subst hn; decide
  · obtain ⟨f, rfl⟩ : ∃ f, n = f + 1 := ⟨n - 1, by omega⟩
    simp [natToChars, natToCharsAux]

theorem natToChars_mem (n : Nat) (c : Char) (h : c ∈ natToChars n) :
    ∃ d, d < 10 ∧ c = digitChar d := by
  by_cases hn : n = 0
  · subst hn
    simp [natToChars] at h
    exact ⟨0, by norm_num, by rw [h]; decide⟩
  · exact natToCharsAux_mem n n c (by simpa [natToChars, hn] using h)

theorem pyIntOfChars_natToChars (n : Nat) :
    pyIntOfChars (natToChars n) = some (n : Int) := by
  obtain ⟨c, cs, hcs⟩ : ∃ c cs, natToChars n = c :: cs := by
    cases h : natToChars n with
    | nil => exact absurd h (natToChars_ne_nil n)
    | cons c cs => exact ⟨c, cs, rfl⟩
  obtain ⟨d, hd, hc⟩ := natToChars_mem n c (hcs ▸ List.mem_cons_self c cs)
  have hminus : ¬ c = '-' := hc ▸ digitChar_ne_minus d hd
  have hplus : ¬ c = '+' := hc ▸ digitChar_ne_plus d hd
  rw [hcs, pyIntOfChars, if_neg hminus, if_neg hplus, ← hcs, parse_natToChars n]
  rfl

theorem pyIntOfChars_zero_cons (m : Nat) :
    pyIntOfChars ('0' :: natToChars m) = some (m : Int) := by
  rw [pyIntOfChars, if_neg (by decide), if_neg (by decide)]
  have h0 : digitVal '0' = some 0 := by decide
  have : parseDigitsAux ('0' :: natToChars m) 0 = parseDigitsAux (natToChars m) 0 := by
    rw [parseDigitsAux, h0]
  rw [this, parse_natToChars m]
  rfl

theorem pyIntOfString_pad2 (i : Int) (h : 0 ≤ i) : pyIntOfString (pad2 i) = some i := by
  have hneg : ¬ i < 0 := not_lt.mpr h
  have hi : intToString i = String.mk (natToChars i.toNat) := by
    rw [intToString, if_neg hneg]
  by_cases hl : (intToString i).length < 2
  · have hpad : pad2 i = "0" ++ String.mk (natToChars i.toNat) := by
      rw [pad2]
      simp only [hi] at hl ⊢
      rw [if_pos hl]
    rw [hpad]
    show pyIntOfChars (("0" ++ String.mk (natToChars i.toNat)).data) = some i
    have hdata : ("0" ++ String.mk (natToChars i.toNat)).data = '0' :: natToChars i.toNat := by
      simp
    rw [hdata, pyIntOfChars_zero_cons, Int.toNat_of_nonneg h]
  · have hpad : pad2 i = String.mk (natToChars i.toNat) := by
      rw [pad2]
      simp only [hi] at hl ⊢
      rw [if_neg hl]
    rw [hpad]
    show pyIntOfChars (natToChars i.toNat) = some i
    rw [pyIntOfChars_natToChars, Int.toNat_of_nonneg h]

theorem pad2_no_colon (i : Int) (h : 0 ≤ i) : ':' ∉ (pad2 i).data := by
  have hneg : ¬ i < 0 := not_lt.mpr h
  have hi : intToString i = String.mk (natToChars i.toNat) := by
    rw [intToString, if_neg hneg]
  intro hmem
  have hcases : (':' : Char) = '0' ∨ ':' ∈ natToChars i.toNat := by
    rw [pad2] at hmem
    simp only [hi] at hmem
    by_cases hl : (String.mk (natToChars i.toNat)).length < 2
    · rw [if_pos hl] at hmem
      have : (("0" ++ String.mk (natToChars i.toNat)).data) = '0' :: natToChars i.toNat := by
        simp
      rw [this] at hmem
      exact List.mem_cons.mp hmem
    · rw [if_neg hl] at hmem
      exact Or.inr hmem
  rcases hcases with hc | hc
  · exact absurd hc (by decide)
  · obtain ⟨d, hd, hdc⟩ := natToChars_mem _ _ hc
    exact digitChar_ne_colon d hd hdc.symm

/-! ### Lemmas about `pySplit` -/

theorem pySplitChar_ne_nil (sep : Char) (l : List Char) : pySplitChar sep l ≠ [] := by
  cases l with
  | nil => simp [pySplitChar]
  | cons c cs =>
    rw [pySplitChar]
    cases pySplitChar sep cs with
    | nil => simp
    | cons t ts => by_cases h : c = sep <;> simp [h]

theorem pySplitChar_no_sep (sep : Char) (l : List Char) (h : sep ∉ l) :
    pySplitChar sep l = [l] := by
  induction l with
  | nil => rfl
  | cons c cs ih =>
    have hc : ¬ c = sep := fun e => h (e ▸ List.mem_cons_self c cs)
    have hcs : sep ∉ cs := fun m => h (List.mem_cons_of_mem c m)
    rw [pySplitChar, ih hcs]
    simp [hc]

theorem pySplitChar_append (sep : Char) (a b : List Char) (h : sep ∉ a) :
    pySplitChar sep (a ++ sep :: b) = a :: pySplitChar sep b := by
  induction a with
  | nil =>
    rw [List.nil_append, pySplitChar]
    cases hpb : pySplitChar sep b with
    | nil => exact absurd hpb (pySplitChar_ne_nil sep b)
    | cons t ts => simp
  | cons c cs ih =>
    have hc : ¬ c = sep := fun e => h (e ▸ List.mem_cons_self c cs)
    have hcs : sep ∉ cs := fun m => h (List.mem_cons_of_mem c m)
    rw [List.cons_append, pySplitChar, ih hcs]
    simp [hc]

theorem pySplit_append_colon (a b : String) (ha : ':' ∉ a.data) (hb : ':' ∉ b.data) :
    pySplit (a ++ ":" ++ b) ':' = [a, b] := by
  have hdata : (a ++ ":" ++ b).data = a.data ++ ':' :: b.data := by simp
  rw [pySplit, hdata, pySplitChar_append ':' a.data b.data ha, pySplitChar_no_sep ':' b.data hb]
  rfl

/-! ### C9: the position round trip -/

/-- C9 (confirmed): for every nonnegative microsecond position `p`
that is a whole number of seconds, rendering it through the source's
`MM:SS` decomposition (`minutes = secs div 60`, `seconds = secs mod
60`, zero-padded) and re-parsing the string through
`set_position_str`'s decomposition yields `p` back. -/
theorem position_format_parse_round_trip (p : Int) (hp : 0 ≤ p)
    (hw : Int.fmod p 1000000 = 0) :
    parse_position_str (format_mm_ss (Int.fdiv p 1000000)) = some p := by
  set secs := Int.fdiv p 1000000 with hsecs
  have hsecs0 : 0 ≤ secs := Int.fdiv_nonneg hp (by norm_num)
  have hm0 : 0 ≤ Int.fdiv secs 60 := Int.fdiv_nonneg hsecs0 (by norm_num)
  have hs0 : 0 ≤ Int.fmod secs 60 := Int.fmod_nonneg hsecs0 (by norm_num)
  have hsplit : pySplit (format_mm_ss secs) ':' =
      [pad2 (Int.fdiv secs 60), pad2 (Int.fmod secs 60)] := by
    have := pySplit_append_colon (pad2 (Int.fdiv secs 60)) (pad2 (Int.fmod secs 60))
      (pad2_no_colon _ hm0) (pad2_no_colon _ hs0)
    simpa [format_mm_ss] using this
  rw [parse_position_str, hsplit]
  simp only [pyIntOfString_pad2 _ hm0, pyIntOfString_pad2 _ hs0]
  congr 1
  have h1 : Int.fmod secs 60 + 60 * Int.fdiv secs 60 = secs := Int.fmod_add_fdiv secs 60
  have h2 : Int.fmod p 1000000 + 1000000 * Int.fdiv p 1000000 = p := Int.fmod_add_fdiv p 1000000
  rw [hw, ← hsecs] at h2
  linear_combination 1000000 * h1 + h2

/-- C9 witness: `754_000_000` microseconds formats to `"12:34"`, which
re-parses to `754_000_000`. -/
theorem position_format_parse_round_trip_witness :
    format_mm_ss (Int.fdiv 754000000 1000000) = "12:34" ∧
    parse_position_str (format_mm_ss (Int.fdiv 754000000 1000000)) = some 754000000 :=
  ⟨by decide, position_format_parse_round_trip 754000000 (by decide) (by decide)⟩

/-! ### C5: discovery filtering and identity mapping -/

/-- C5 counterexample: the claim maps each kept name to the full
remainder after the well-known naming convention, but on
`"org.mpris.MediaPlayer2.foo.bar"` the code yields the last
dot-component `"bar"`, not the remainder `"foo.bar"`. -/
theorem discovery_not_remainder_counterexample :
    get_available_bus_apps ["org.mpris.MediaPlayer2.foo.bar"] = ["bar"] ∧
    spec_available_identities_claim ["org.mpris.MediaPlayer2.foo.bar"] = ["foo.bar"] ∧
    get_available_bus_apps ["org.mpris.MediaPlayer2.foo.bar"] ≠
      spec_available_identities_claim ["org.mpris.MediaPlayer2.foo.bar"] :=
  ⟨by decide, by decide, by decide⟩

/-- C5 (amended): for every raw list of registered bus names, discovery
returns exactly the names matching the player-service naming
convention, excluding anonymous connection names and names holding the
instance-qualifier token, each mapped to its *last dot-separated
component*; on the claim's example input it returns exactly
`["spotify"]`. -/
theorem discovery_filters_and_maps_last_component :
    (∀ services : List String,
      get_available_bus_apps services = spec_available_identities services) ∧
    get_available_bus_apps
      ["org.mpris.MediaPlayer2.spotify", "org.mpris.MediaPlayer2.vlc.instance1234",
        ":1.57", "org.freedesktop.Notifications"] = ["spotify"] := by
  constructor
  · intro services
    rw [get_available_bus_apps, _get_available_bus_names, spec_available_identities,
      List.filter_filter]
    congr 1
    apply List.filter_congr
    intro x _
    cases hx : pyStartswith x "org.mpris.MediaPlayer2." <;>
      cases hy : pyStartswith x ":" <;>
        cases hz : containsSub x "instance" <;> rfl
  · decide

/-! ### C6: `set_position_str` parsing contract -/

/-- C6 (confirmed): `set_position_str` parses exactly two
colon-separated integer tokens, converts them to
`(minutes * 60 + seconds) * 1_000_000` microseconds and delegates to
`set_position`; `"abc"` and `"12"` raise `ValueError` (unlike the
silent inactive-player defaults, which are `ok` values), while
`"01:05"` delegates `65_000_000`. -/
theorem set_position_str_contract (bus : Bus) (c : Controller) :
    set_position_str bus c "abc" = .error "ValueError" ∧
    set_position_str bus c "12" = .error "ValueError" ∧
    parse_position_str "01:05" = some 65000000 ∧
    set_position_str bus c "01:05" = set_position bus c 65000000 ∧
    (∀ (s a b : String) (m n : Int), pySplit s ':' = [a, b] →
      pyIntOfString a = some m → pyIntOfString b = some n →
      parse_position_str s = some ((m * 60 + n) * 1000000)) ∧
    (∀ (s : String) (p : Int), parse_position_str s = some p →
      set_position_str bus c s = set_position bus c p) := by
  refine ⟨rfl, rfl, by decide, rfl, ?_, ?_⟩
  · intro s a b m n hsplit hma hmb
    rw [parse_position_str, hsplit]
    simp only [hma, hmb]
  · intro s p hp
    rw [set_position_str, hp]

/-- C6 witness: the contract applied at a concrete state and at the
concrete token pair `"01"`, `"05"`. -/
theorem set_position_str_contract_witness :
    set_position_str busPlain ctlPlain "abc" = .error "ValueError" ∧
    parse_position_str ("01" ++ ":" ++ "05") = some ((1 * 60 + 5) * 1000000) := by
  obtain ⟨h1, _, _, _, h5, _⟩ := set_position_str_contract busPlain ctlPlain
  exact ⟨h1, h5 ("01" ++ ":" ++ "05") "01" "05" 1 5 (by decide) (by decide) (by decide)⟩

/-! ### C2: defaults of every getter while no connection is active -/

/-- C2: with all three connection handles `None`, every getter returns
its default and none raises; note the `get_position_str` default the
code actually returns is the literal `"00:00:00"`, not the documented
`"00:00"` (the divergence making this claim a code bug). -/
theorem unbound_getters_defaults (bus : Bus) (c : Controller)
    (hx : c.proxy = none) (hi : c.interface = none) (hp : c.properties = none) :
    get_playback_status bus c = .ok "Stopped" ∧
    get_position bus c = .ok 0 ∧
    get_position_str bus c = .ok "00:00:00" ∧
    get_position_and_length_str bus c = .ok "00:00/00:00" ∧
    get_shuffle bus c = .ok false ∧
    get_loop bus c = .ok "None" ∧
    get_metadata bus c = .ok none ∧
    get_title bus c = .ok "-" ∧
    get_artist bus c = .ok "-" ∧
    get_album bus c = .ok "-" ∧
    get_album_artist bus c = .ok "-" ∧
    get_art_url bus c = .ok "" ∧
    set_position bus c 1000000 = .ok none := by
  have hmd : get_metadata bus c = .ok none := by rw [get_metadata, hp]
  refine ⟨by rw [get_playback_status, hp], by rw [get_position, hp], ?_, ?_,
    by rw [get_shuffle, hp], by rw [get_loop, hp], hmd, ?_, ?_, ?_, ?_, ?_,
    by rw [set_position, hi]⟩
  all_goals
    first
    | (rw [get_position_str, hmd]; rfl)
    | (rw [get_position_and_length_str, hmd]; rfl)
    | (rw [get_title, hmd]; rfl)
    | (rw [get_artist, hmd]; rfl)
    | (rw [get_album, hmd]; rfl)
    | (rw [get_album_artist, hmd]; rfl)
    | (rw [get_art_url, hmd]; rfl)

/-- C2 witness: the defaults at a concrete unbound controller on a
concrete bus. -/
theorem unbound_getters_defaults_witness :
    get_playback_status busOnlyVlc ctlUnbound = .ok "Stopped" ∧
    get_position_str busOnlyVlc ctlUnbound = .ok "00:00:00" ∧
    get_art_url busOnlyVlc ctlUnbound = .ok "" := by
  obtain ⟨h1, _, h3, _, _, _, _, _, _, _, _, h12, _⟩ :=
    unbound_getters_defaults busOnlyVlc ctlUnbound rfl rfl rfl
  exact ⟨h1, h3, h12⟩

/-! ### C1: the switch-then-query scenario -/

/-- C1 (code bug): with `"spotify"` unavailable and `"vlc"` registered,
starting Unbound and invoking the switch action
`activate_bus_app("vlc")` leaves the stored identity `"spotify"`, all
three handles `None`, and a subsequent `get_playback_status()` returns
the default `"Stopped"`, not vlc's real status `"Playing"` — because
`activate_bus_app` connects to `self.bus_app` and never assigns it. -/
theorem switch_to_vlc_stays_stopped :
    is_bus_app_available busOnlyVlc "vlc" = true ∧
    is_bus_app_available busOnlyVlc "spotify" = false ∧
    ctlSpotifyStart.proxy = none ∧
    ctlAfterSwitch.bus_app = "spotify" ∧
    ctlAfterSwitch.proxy = none ∧
    ctlAfterSwitch.interface = none ∧
    ctlAfterSwitch.properties = none ∧
    get_playback_status busOnlyVlc ctlAfterSwitch = .ok "Stopped" ∧
    vlcPlayer.playbackStatus = "Playing" ∧
    get_playback_status busOnlyVlc ctlAfterSwitch ≠ .ok vlcPlayer.playbackStatus := by
  refine ⟨by decide, by decide, by decide, by decide, by decide, by decide, by decide,
    rfl, rfl, ?_⟩
  intro h
  have : "Stopped" = vlcPlayer.playbackStatus := Except.ok.inj h
  exact absurd this (by decide)

/-! ### C3: failed activation and the controller state -/

/-- C3 counterexample: a controller still holding handles from an
earlier binding, whose selected identity is unreachable, keeps those
non-`None` handles after the failed `activate_bus_app` — it does not
return to Unbound. -/
theorem activate_failure_keeps_stale_handles :
    busEmpty.names.contains ("org.mpris.MediaPlayer2." ++ ctlStale.bus_app) = false ∧
    activate_bus_app busEmpty ctlStale "gone" = ctlStale ∧
    (activate_bus_app busEmpty ctlStale "gone").proxy ≠ none :=
  ⟨by decide, by decide, by decide⟩

/-- C3 (amended): when the selected identity's service name is not
reachable, `activate_bus_app` recovers without raising and leaves the
controller state exactly as it was — so a controller that was Unbound
remains Unbound, but stale handles are kept, not reset to `None`. -/
theorem activate_failure_leaves_state_unchanged (bus : Bus) (c : Controller) (app : String)
    (h : bus.names.contains ("org.mpris.MediaPlayer2." ++ c.bus_app) = false) :
    activate_bus_app bus c app = c := by
  have hmem : ¬ (bus.names.contains ("org.mpris.MediaPlayer2." ++ c.bus_app) = true) := by
    rw [h]
    exact Bool.false_ne_true
  rw [activate_bus_app, get_object, if_neg hmem]

/-- C3 witness: the unchanged-state theorem applied at the concrete
empty bus and stale controller. -/
theorem activate_failure_leaves_state_unchanged_witness :
    activate_bus_app busEmpty ctlStale "gone" = ctlStale :=
  activate_failure_leaves_state_unchanged busEmpty ctlStale "gone" (by decide)

/-! ### C4: empty artist sequences in metadata normalization -/

/-- C4 counterexample: while Active on a player whose remote metadata
maps `"xesam:artist"` to a present but *empty* sequence,
`get_metadata` raises `IndexError` instead of substituting the
`"Unknown"` placeholder. -/
theorem active_empty_artist_raises :
    is_current_bus_app_active busEmptyArtist ctlEmptyArtist = true ∧
    get_metadata busEmptyArtist ctlEmptyArtist = .error "IndexError" :=
  ⟨by decide, rfl⟩

/-- C4 (amended): the artist and album-artist fields take the first
element of a present non-empty sequence and the `"Unknown"`
placeholder when the key is absent; but a present *empty* sequence
makes normalization raise `IndexError` — it is not replaced by the
placeholder, so normalization is not total over such values. -/
theorem artist_fields_first_or_default (l la : List String) :
    (normalize_metadata [("xesam:artist", .vlist l)] =
      match l with
      | [] => .error "IndexError"
      | a :: _ => .ok { title := "Unknown", artist := a, album := "Unknown",
                        album_artist := "Unknown", track_number := 0, url := "",
                        art_url := "", length := 0, track_id := "" }) ∧
    (normalize_metadata [("xesam:albumArtist", .vlist la)] =
      match la with
      | [] => .error "IndexError"
      | a :: _ => .ok { title := "Unknown", artist := "Unknown", album := "Unknown",
                        album_artist := a, track_number := 0, url := "",
                        art_url := "", length := 0, track_id := "" }) := by
  constructor
  · cases l <;> rfl
  · cases la <;> rfl

/-! ### C10: unknown remote loop value makes `cycle_loop` raise -/

/-- C10 (confirmed): with the controller Active and the remote
`LoopStatus` reading `"Foo"` — outside the fixed loop-state list —
`cycle_loop` raises (`ValueError` from the `.index` lookup) instead of
writing a default or acting as a no-op. -/
theorem cycle_loop_unknown_loop_raises :
    ctlFooLoop.properties = some "org.mpris.MediaPlayer2.foo" ∧
    fooLoopPlayer.loopStatus ∉ LOOP_STATES ∧
    cycle_loop busFooLoop ctlFooLoop = .error "ValueError" :=
  ⟨rfl, by decide, rfl⟩

/-! ### C7: loop cycling -/

theorem nextLoop_mem (s : String)
    (h : s = "None" ∨ s = "Track" ∨ s = "Playlist") :
    nextLoop s = "None" ∨ nextLoop s = "Track" ∨ nextLoop s = "Playlist" := by
  rcases h with rfl | rfl | rfl <;> decide

theorem lookupPlayer_setLoopIn (v : String) :
    ∀ (ps : List (String × RemotePlayer)) (svc : String),
      lookupPlayer (setLoopIn v ps svc) svc =
        (lookupPlayer ps svc).map (fun p => { p with loopStatus := v }) := by
  intro ps
  induction ps with
  | nil => intro svc; rfl
  | cons kp rest ih =>
    intro svc
    obtain ⟨k, p⟩ := kp
    by_cases hk : k = svc
    · simp [setLoopIn, lookupPlayer, hk]
    · simp [setLoopIn, lookupPlayer, hk, ih]

theorem cycle_loop_step (bus : Bus) (c : Controller) (svc : String) (p : RemotePlayer)
    (h1 : c.properties = some svc) (h2 : lookupPlayer bus.players svc = some p)
    (h3 : p.loopStatus = "None" ∨ p.loopStatus = "Track" ∨ p.loopStatus = "Playlist") :
    cycle_loop bus c =
      .ok { bus with players := setLoopIn (nextLoop p.loopStatus) bus.players svc } := by
  have hget : get_loop bus c = .ok p.loopStatus := by
    rw [get_loop]
    simp only [h1]
    rw [propertiesGet, h2]
    rfl
  have hset : ∀ v, propertiesSetLoop bus svc v =
      .ok { bus with players := setLoopIn v bus.players svc } := by
    intro v
    rw [propertiesSetLoop, h2]
  rw [cycle_loop]
  simp only [h1]
  rw [hget]
  rcases h3 with h | h | h <;> rw [h]
  · exact hset "Track"
  · exact hset "Playlist"
  · exact hset "None"

/-- C7 (confirmed): with the controller Active on a reachable player
whose loop state is one of `{None, Track, Playlist}` (read-back of the
last written value is what the deterministic bus model provides),
`cycle_loop` advances the stored loop state exactly one step in the
fixed order `None → Track → Playlist → None`, and three applications
return the player to its starting state. -/
theorem cycle_loop_cycles (bus : Bus) (c : Controller) (svc : String) (p : RemotePlayer)
    (h1 : c.properties = some svc) (h2 : lookupPlayer bus.players svc = some p)
    (h3 : p.loopStatus = "None" ∨ p.loopStatus = "Track" ∨ p.loopStatus = "Playlist") :
    ∃ bus1 bus2 bus3,
      cycle_loop bus c = .ok bus1 ∧
      lookupPlayer bus1.players svc = some { p with loopStatus := nextLoop p.loopStatus } ∧
      cycle_loop bus1 c = .ok bus2 ∧
      cycle_loop bus2 c = .ok bus3 ∧
      lookupPlayer bus3.players svc = some p := by
  have h3b := nextLoop_mem p.loopStatus h3
  have h3c := nextLoop_mem (nextLoop p.loopStatus) h3b
  have e1 := cycle_loop_step bus c svc p h1 h2 h3
  have l1 : lookupPlayer (setLoopIn (nextLoop p.loopStatus) bus.players svc) svc
      = some { p with loopStatus := nextLoop p.loopStatus } := by
    rw [lookupPlayer_setLoopIn, h2, Option.map_some']
  have e2 := cycle_loop_step
    { bus with players := setLoopIn (nextLoop p.loopStatus) bus.players svc }
    c svc { p with loopStatus := nextLoop p.loopStatus } h1 l1 h3b
  have l2 : lookupPlayer (setLoopIn (nextLoop (nextLoop p.loopStatus))
        (setLoopIn (nextLoop p.loopStatus) bus.players svc) svc) svc
      = some { p with loopStatus := nextLoop (nextLoop p.loopStatus) } := by
    rw [lookupPlayer_setLoopIn, l1, Option.map_some']
  have e3 := cycle_loop_step
    { bus with players := (setLoopIn (nextLoop (nextLoop p.loopStatus))
        (setLoopIn (nextLoop p.loopStatus) bus.players svc) svc) }
    c svc { p with loopStatus := nextLoop (nextLoop p.loopStatus) } h1 l2 h3c
  have l3 : lookupPlayer (setLoopIn p.loopStatus
        (setLoopIn (nextLoop (nextLoop p.loopStatus))
          (setLoopIn (nextLoop p.loopStatus) bus.players svc) svc) svc) svc
      = some p := by
    rw [lookupPlayer_setLoopIn, l2, Option.map_some']
  have hfix : nextLoop (nextLoop (nextLoop p.loopStatus)) = p.loopStatus := by
    rcases h3 with h | h | h <;> rw [h] <;> rfl
  refine ⟨_, _, _, e1, l1, e2, e3, ?_⟩
  show lookupPlayer (setLoopIn (nextLoop (nextLoop (nextLoop p.loopStatus)))
      (setLoopIn (nextLoop (nextLoop p.loopStatus))
        (setLoopIn (nextLoop p.loopStatus) bus.players svc) svc) svc) svc = some p
  rw [hfix]
  exact l3

/-- C7 witness: the cycle applied to a concrete Active controller on a
concrete player whose loop state is `"None"`. -/
theorem cycle_loop_cycles_witness :
    ∃ bus1 bus2 bus3,
      cycle_loop busPlain ctlPlain = .ok bus1 ∧
      lookupPlayer bus1.players "org.mpris.MediaPlayer2.plain" =
        some { plainPlayer with loopStatus := nextLoop plainPlayer.loopStatus } ∧
      cycle_loop bus1 ctlPlain = .ok bus2 ∧
      cycle_loop bus2 ctlPlain = .ok bus3 ∧
      lookupPlayer bus3.players "org.mpris.MediaPlayer2.plain" = some plainPlayer :=
  cycle_loop_cycles busPlain ctlPlain "org.mpris.MediaPlayer2.plain" plainPlayer rfl rfl
    (Or.inl rfl)

/-! ### C8: metadata defaults for missing keys -/

/-- C8 (confirmed): for every remote metadata mapping whose present
values the normalization can consume, `get_metadata`'s dict literal
succeeds with a fully populated result, and every key that is missing
gets its documented default (`"Unknown"` for the four text fields, `0`
for the numeric fields, `""` for url/art/track-id). -/
theorem metadata_missing_keys_defaults (m : List (String × DBusValue))
    (hwf : ∀ k v, dictLookup m k = some v → wfValue k v = true) :
    ∃ t, normalize_metadata m = .ok t ∧
      (dictLookup m "xesam:title" = none → t.title = "Unknown") ∧
      (dictLookup m "xesam:artist" = none → t.artist = "Unknown") ∧
      (dictLookup m "xesam:album" = none → t.album = "Unknown") ∧
      (dictLookup m "xesam:albumArtist" = none → t.album_artist = "Unknown") ∧
      (dictLookup m "xesam:trackNumber" = none → t.track_number = 0) ∧
      (dictLookup m "xesam:url" = none → t.url = "") ∧
      (dictLookup m "mpris:artUrl" = none → t.art_url = "") ∧
      (dictLookup m "mpris:length" = none → t.length = 0) ∧
      (dictLookup m "mpris:trackid" = none → t.track_id = "") := by
  have hart : ∃ av, pyIndex0 (dictGet m "xesam:artist" (.vlist ["Unknown"])) = some av ∧
      (dictLookup m "xesam:artist" = none → av = .vstr "Unknown") := by
    cases ha : dictLookup m "xesam:artist" with
    | none => exact ⟨.vstr "Unknown", by rw [dictGet, ha]; rfl, fun _ => rfl⟩
    | some v =>
      have hw := hwf _ v ha
      rw [wfValue, if_pos (Or.inl rfl)] at hw
      obtain ⟨av, hav⟩ := Option.isSome_iff_exists.mp hw
      exact ⟨av, by rw [dictGet, ha]; exact hav, fun hnone => nomatch hnone⟩
  have halb : ∃ bv, pyIndex0 (dictGet m "xesam:albumArtist" (.vlist ["Unknown"])) = some bv ∧
      (dictLookup m "xesam:albumArtist" = none → bv = .vstr "Unknown") := by
    cases ha : dictLookup m "xesam:albumArtist" with
    | none => exact ⟨.vstr "Unknown", by rw [dictGet, ha]; rfl, fun _ => rfl⟩
    | some v =>
      have hw := hwf _ v ha
      rw [wfValue, if_pos (Or.inr rfl)] at hw
      obtain ⟨bv, hbv⟩ := Option.isSome_iff_exists.mp hw
      exact ⟨bv, by rw [dictGet, ha]; exact hbv, fun hnone => nomatch hnone⟩
  have htrk : ∃ tn, pyInt (dictGet m "xesam:trackNumber" (.vint 0)) = some tn ∧
      (dictLookup m "xesam:trackNumber" = none → tn = 0) := by
    cases ha : dictLookup m "xesam:trackNumber" with
    | none => exact ⟨0, by rw [dictGet, ha]; rfl, fun _ => rfl⟩
    | some v =>
      have hw := hwf _ v ha
      rw [wfValue, if_neg (by decide), if_pos (Or.inl rfl)] at hw
      obtain ⟨tn, htn⟩ := Option.isSome_iff_exists.mp hw
      exact ⟨tn, by rw [dictGet, ha]; exact htn, fun hnone => nomatch hnone⟩
  have hlen : ∃ ln, pyInt (dictGet m "mpris:length" (.vint 0)) = some ln ∧
      (dictLookup m "mpris:length" = none → ln = 0) := by
    cases ha : dictLookup m "mpris:length" with
    | none => exact ⟨0, by rw [dictGet, ha]; rfl, fun _ => rfl⟩
    | some v =>
      have hw := hwf _ v ha
      rw [wfValue, if_neg (by decide), if_pos (Or.inr rfl)] at hw
      obtain ⟨ln, hln⟩ := Option.isSome_iff_exists.mp hw
      exact ⟨ln, by rw [dictGet, ha]; exact hln, fun hnone => nomatch hnone⟩
  obtain ⟨av, hav, havd⟩ := hart
  obtain ⟨bv, hbv, hbvd⟩ := halb
  obtain ⟨tn, htn, htnd⟩ := htrk
  obtain ⟨ln, hln, hlnd⟩ := hlen
  have ht : normalize_metadata m = .ok
      { title := pyStr (dictGet m "xesam:title" (.vstr "Unknown"))
        artist := pyStr av
        album := pyStr (dictGet m "xesam:album" (.vstr "Unknown"))
        album_artist := pyStr bv
        track_number := tn
        url := pyStr (dictGet m "xesam:url" (.vstr ""))
        art_url := pyStr (dictGet m "mpris:artUrl" (.vstr ""))
        length := ln
        track_id := pyStr (dictGet m "mpris:trackid" (.vstr "")) } := by
    rw [normalize_metadata, hav, hbv, htn, hln]
    rfl
  refine ⟨_, ht, ?_, ?_, ?_, ?_, ?_, ?_, ?_, ?_, ?_⟩
  · intro h; show pyStr (dictGet m "xesam:title" (.vstr "Unknown")) = "Unknown"
    rw [dictGet, h]; rfl
  · intro h; show pyStr av = "Unknown"
    rw [havd h]; rfl
  · intro h; show pyStr (dictGet m "xesam:album" (.vstr "Unknown")) = "Unknown"
    rw [dictGet, h]; rfl
  · intro h; show pyStr bv = "Unknown"
    rw [hbvd h]; rfl
  · intro h; exact htnd h
  · intro h; show pyStr (dictGet m "xesam:url" (.vstr "")) = ""
    rw [dictGet, h]; rfl
  · intro h; show pyStr (dictGet m "mpris:artUrl" (.vstr "")) = ""
    rw [dictGet, h]; rfl
  · intro h; exact hlnd h
  · intro h; show pyStr (dictGet m "mpris:trackid" (.vstr "")) = ""
    rw [dictGet, h]; rfl

/-- C8 witness: the defaults theorem applied at the empty mapping —
all nine keys missing at once. -/
theorem metadata_missing_keys_defaults_witness :
    ∃ t, normalize_metadata [] = .ok t ∧ t.title = "Unknown" ∧ t.artist = "Unknown" ∧
      t.album = "Unknown" ∧ t.album_artist = "Unknown" ∧ t.track_number = 0 ∧
      t.url = "" ∧ t.art_url = "" ∧ t.length = 0 ∧ t.track_id = "" := by
  obtain ⟨t, h0, h1, h2, h3, h4, h5, h6, h7, h8, h9⟩ :=
    metadata_missing_keys_defaults [] (fun k v h => nomatch h)
  exact ⟨t, h0, h1 rfl, h2 rfl, h3 rfl, h4 rfl, h5 rfl, h6 rfl, h7 rfl, h8 rfl, h9 rfl⟩

end MprisPlugin
